import Mathlib

/-!
Verification of the GitHub MCP server (src/github/server.py).

The development shallowly embeds the pure request-construction and
response-normalisation logic of the server: the UTF-8 and base64 codecs used
by `get_file_content`, the percent-encoding of `urllib.parse.quote` used by
`search_repositories`, the `json.dumps(..., indent=2)` pretty-printer, the
URI parsing of `handle_read_resource`, and the tool dispatch of
`handle_call_tool`.  The network boundary (`make_github_request`) is
represented by an oracle of type `Upstream` mapping each outbound request to
either a parsed JSON body (a 2xx response) or an error message (the text of
the exception raised for timeouts, connection failures and non-2xx statuses).
Each handler returns, along with its envelope text, the list of outbound
requests it attempted, so that claims about network calls can be stated.
-/

set_option maxRecDepth 8000

namespace GitHubMCP

/-! ## UTF-8 codec (models Python bytes.decode("utf-8") / str.encode("utf-8")) -/

/-- Encoding of a single unicode scalar value as UTF-8 bytes. -/
def utf8EncodeChar (c : Char) : List Nat :=
  let n := c.toNat
  if n < 0x80 then [n]
  else if n < 0x800 then [0xC0 + n / 64, 0x80 + n % 64]
  else if n < 0x10000 then [0xE0 + n / 4096, 0x80 + n / 64 % 64, 0x80 + n % 64]
  else [0xF0 + n / 262144, 0x80 + n / 4096 % 64, 0x80 + n / 64 % 64, 0x80 + n % 64]

def utf8EncodeList : List Char → List Nat
  | [] => []
  | c :: cs => utf8EncodeChar c ++ utf8EncodeList cs

/-- Models Python str.encode("utf-8"). -/
def utf8Encode (s : String) : List Nat := utf8EncodeList s.data

/-- Recognises a UTF-8 continuation byte (10xxxxxx). -/
def isCont (b : Nat) : Bool := decide (0x80 ≤ b) && decide (b < 0xC0)

mutual

/-- Strict UTF-8 decoder: rejects invalid leading bytes, truncated sequences,
overlong encodings, surrogate codepoints and codepoints above 0x10FFFF, as
Python bytes.decode("utf-8") does (the failure models UnicodeDecodeError). -/
def utf8DecodeList : List Nat → Option (List Char)
  | [] => some []
  | b0 :: rest =>
    if b0 < 0x80 then (utf8DecodeList rest).map (fun cs => Char.ofNat b0 :: cs)
    else if b0 < 0xC0 then none
    else if b0 < 0xE0 then utf8Dec2 b0 rest
    else if b0 < 0xF0 then utf8Dec3 b0 rest
    else if b0 < 0xF8 then utf8Dec4 b0 rest
    else none

def utf8Dec2 (b0 : Nat) : List Nat → Option (List Char)
  | b1 :: rest =>
    if isCont b1 then
      let n := (b0 - 0xC0) * 64 + (b1 - 0x80)
      if 0x80 ≤ n then (utf8DecodeList rest).map (fun cs => Char.ofNat n :: cs) else none
    else none
  | [] => none

def utf8Dec3 (b0 : Nat) : List Nat → Option (List Char)
  | b1 :: b2 :: rest =>
    if isCont b1 ∧ isCont b2 then
      let n := (b0 - 0xE0) * 4096 + (b1 - 0x80) * 64 + (b2 - 0x80)
      if 0x800 ≤ n ∧ (n < 0xD800 ∨ 0xDFFF < n) then
        (utf8DecodeList rest).map (fun cs => Char.ofNat n :: cs)
      else none
    else none
  | _ => none

def utf8Dec4 (b0 : Nat) : List Nat → Option (List Char)
  | b1 :: b2 :: b3 :: rest =>
    if isCont b1 ∧ isCont b2 ∧ isCont b3 then
      let n := (b0 - 0xF0) * 262144 + (b1 - 0x80) * 4096 + (b2 - 0x80) * 64 + (b3 - 0x80)
      if 0x10000 ≤ n ∧ n < 0x110000 then
        (utf8DecodeList rest).map (fun cs => Char.ofNat n :: cs)
      else none
    else none
  | _ => none

end

theorem utf8DecodeList_encodeChar (c : Char) (bs : List Nat) :
    utf8DecodeList (utf8EncodeChar c ++ bs) = (utf8DecodeList bs).map (fun cs => c :: cs) := by
  have hv : c.toNat < 0xd800 ∨ (0xdfff < c.toNat ∧ c.toNat < 0x110000) := c.valid
  have hofn : Char.ofNat c.toNat = c := Char.ofNat_toNat c
  set n := c.toNat with hn
  rw [utf8EncodeChar]
  simp only [← hn]
  by_cases h1 : n < 0x80
  · rw [if_pos h1, List.cons_append, List.nil_append, utf8DecodeList, if_pos h1, hofn]
  · rw [if_neg h1]
    by_cases h2 : n < 0x800
    · rw [if_pos h2, List.cons_append, List.cons_append, List.nil_append, utf8DecodeList,
        if_neg (by omega), if_neg (by omega), if_pos (by omega), utf8Dec2]
      rw [if_pos (by simp only [isCont, Bool.and_eq_true, decide_eq_true_eq]; omega)]
      simp only []
      rw [show 0xC0 + n / 64 - 0xC0 = n / 64 by omega, show 0x80 + n % 64 - 0x80 = n % 64 by omega,
        show n / 64 * 64 + n % 64 = n by omega, if_pos (by omega), hofn]
    · rw [if_neg h2]
      by_cases h3 : n < 0x10000
      · rw [if_pos h3, List.cons_append, List.cons_append, List.cons_append, List.nil_append,
          utf8DecodeList, if_neg (by omega), if_neg (by omega), if_neg (by omega),
          if_pos (by omega), utf8Dec3]
        rw [if_pos (by
          constructor <;> (simp only [isCont, Bool.and_eq_true, decide_eq_true_eq]; omega))]
        simp only []
        rw [show 0xE0 + n / 4096 - 0xE0 = n / 4096 by omega,
          show 0x80 + n / 64 % 64 - 0x80 = n / 64 % 64 by omega,
          show 0x80 + n % 64 - 0x80 = n % 64 by omega,
          show n / 4096 * 4096 + n / 64 % 64 * 64 + n % 64 = n by omega,
          if_pos (by omega), hofn]
      · rw [if_neg h3, List.cons_append, List.cons_append, List.cons_append, List.cons_append,
          List.nil_append, utf8DecodeList, if_neg (by omega), if_neg (by omega),
          if_neg (by omega), if_neg (by omega), if_pos (by omega), utf8Dec4]
        rw [if_pos (by
          refine ⟨?_, ?_, ?_⟩ <;> (simp only [isCont, Bool.and_eq_true, decide_eq_true_eq]; omega))]
        simp only []
        rw [show 0xF0 + n / 262144 - 0xF0 = n / 262144 by omega,
          show 0x80 + n / 4096 % 64 - 0x80 = n / 4096 % 64 by omega,
          show 0x80 + n / 64 % 64 - 0x80 = n / 64 % 64 by omega,
          show 0x80 + n % 64 - 0x80 = n % 64 by omega,
          show n / 262144 * 262144 + n / 4096 % 64 * 4096 + n / 64 % 64 * 64 + n % 64 = n by omega,
          if_pos (by omega), hofn]

theorem utf8DecodeList_encodeList (cs : List Char) :
    utf8DecodeList (utf8EncodeList cs) = some cs := by
  induction cs with
  | nil => rfl
  | cons c cs ih => rw [utf8EncodeList, utf8DecodeList_encodeChar, ih, Option.map_some']

theorem utf8DecodeList_utf8Encode (s : String) :
    utf8DecodeList (utf8Encode s) = some s.data := by
  rw [utf8Encode, utf8DecodeList_encodeList]

theorem utf8EncodeChar_lt_256 (c : Char) : ∀ b ∈ utf8EncodeChar c, b < 256 := by
  have hv : c.toNat < 0xd800 ∨ (0xdfff < c.toNat ∧ c.toNat < 0x110000) := c.valid
  intro b hb
  rw [utf8EncodeChar] at hb
  set n := c.toNat with hn
  by_cases h1 : n < 0x80
  · rw [if_pos h1] at hb; simp only [List.mem_singleton] at hb; omega
  · rw [if_neg h1] at hb
    by_cases h2 : n < 0x800
    · rw [if_pos h2] at hb; simp only [List.mem_cons, List.not_mem_nil, or_false] at hb; omega
    · rw [if_neg h2] at hb
      by_cases h3 : n < 0x10000
      · rw [if_pos h3] at hb; simp only [List.mem_cons, List.not_mem_nil, or_false] at hb; omega
      · rw [if_neg h3] at hb; simp only [List.mem_cons, List.not_mem_nil, or_false] at hb; omega

theorem utf8Encode_lt_256 (s : String) : ∀ b ∈ utf8Encode s, b < 256 := by
  rw [utf8Encode]
  generalize s.data = cs
  induction cs with
  | nil => intro b hb; simp [utf8EncodeList] at hb
  | cons c cs ih =>
    intro b hb
    rw [utf8EncodeList, List.mem_append] at hb
    rcases hb with hb | hb
    · exact utf8EncodeChar_lt_256 c b hb
    · exact ih b hb

/-! ## Base64 codec (models Python base64.b64encode / base64.b64decode on
canonically padded input, as produced by the GitHub contents API) -/

def b64Alphabet : List Char :=
  ['A','B','C','D','E','F','G','H','I','J','K','L','M','N','O','P','Q','R','S','T',
   'U','V','W','X','Y','Z','a','b','c','d','e','f','g','h','i','j','k','l','m','n',
   'o','p','q','r','s','t','u','v','w','x','y','z','0','1','2','3','4','5','6','7',
   '8','9','+','/']

def b64Char (i : Nat) : Char := b64Alphabet.getD i '='

def b64IndexAux : List Char → Nat → Char → Option Nat
  | [], _, _ => none
  | a :: as, i, c => if a = c then some i else b64IndexAux as (i + 1) c

def b64Index (c : Char) : Option Nat := b64IndexAux b64Alphabet 0 c

theorem b64Index_b64Char : ∀ v, v < 64 → b64Index (b64Char v) = some v := by decide

theorem b64Char_ne_pad : ∀ v, v < 64 → b64Char v ≠ '=' := by decide

def b64EncodeList : List Nat → List Char
  | [] => []
  | [a] => [b64Char (a / 4), b64Char (a % 4 * 16), '=', '=']
  | [a, b] => [b64Char (a / 4), b64Char (a % 4 * 16 + b / 16), b64Char (b % 16 * 4), '=']
  | a :: b :: c :: rest =>
    b64Char (a / 4) :: b64Char (a % 4 * 16 + b / 16) :: b64Char (b % 16 * 4 + c / 64)
      :: b64Char (c % 64) :: b64EncodeList rest

/-- Models base64.b64encode of a byte sequence (result viewed as text). -/
def b64Encode (bs : List Nat) : String := ⟨b64EncodeList bs⟩

/-- Models base64.b64decode of a canonically padded base64 text; `none` models
the binascii.Error raised on malformed input. -/
def b64DecodeList : List Char → Option (List Nat)
  | [] => some []
  | w :: x :: y :: z :: rest =>
    (b64Index w).bind fun iw =>
    (b64Index x).bind fun ix =>
    if y = '=' then
      if z = '=' ∧ rest = [] then some [iw * 4 + ix / 16] else none
    else
      (b64Index y).bind fun iy =>
      if z = '=' then
        if rest = [] then some [iw * 4 + ix / 16, ix % 16 * 16 + iy / 4] else none
      else
        (b64Index z).bind fun iz =>
        (b64DecodeList rest).map fun bs =>
          (iw * 4 + ix / 16) :: (ix % 16 * 16 + iy / 4) :: (iy % 4 * 64 + iz) :: bs
  | _ => none

theorem b64DecodeList_encodeList : ∀ (bs : List Nat), (∀ b ∈ bs, b < 256) →
    b64DecodeList (b64EncodeList bs) = some bs
  | [], _ => rfl
  | [a], h => by
    have ha : a < 256 := h a (by simp)
    rw [b64EncodeList, b64DecodeList,
      b64Index_b64Char _ (by omega), b64Index_b64Char _ (by omega)]
    simp only [Option.some_bind]
    have e1 : a / 4 * 4 + a % 4 * 16 / 16 = a := by omega
    simp only [and_self, if_true, e1]
  | [a, b], h => by
    have ha : a < 256 := h a (by simp)
    have hb : b < 256 := h b (by simp)
    rw [b64EncodeList, b64DecodeList,
      b64Index_b64Char _ (by omega), b64Index_b64Char _ (by omega)]
    simp only [Option.some_bind]
    rw [if_neg (b64Char_ne_pad _ (by omega)), b64Index_b64Char _ (by omega)]
    simp only [Option.some_bind]
    have e1 : a / 4 * 4 + (a % 4 * 16 + b / 16) / 16 = a := by omega
    have e2 : (a % 4 * 16 + b / 16) % 16 * 16 + b % 16 * 4 / 4 = b := by omega
    simp only [if_true, e1, e2]
  | a :: b :: c :: rest, h => by
    have ha : a < 256 := h a (by simp)
    have hb : b < 256 := h b (by simp)
    have hc : c < 256 := h c (by simp)
    have ih := b64DecodeList_encodeList rest (fun x hx => h x (by simp [hx]))
    rw [b64EncodeList, b64DecodeList,
      b64Index_b64Char _ (by omega), b64Index_b64Char _ (by omega)]
    simp only [Option.some_bind]
    rw [if_neg (b64Char_ne_pad _ (by omega)), b64Index_b64Char _ (by omega)]
    simp only [Option.some_bind]
    rw [if_neg (b64Char_ne_pad _ (by omega)), b64Index_b64Char _ (by omega)]
    simp only [Option.some_bind]
    rw [ih, Option.map_some',
      show a / 4 * 4 + (a % 4 * 16 + b / 16) / 16 = a by omega,
      show (a % 4 * 16 + b / 16) % 16 * 16 + (b % 16 * 4 + c / 64) / 4 = b by omega,
      show (b % 16 * 4 + c / 64) % 4 * 64 + c % 64 = c by omega]

/-! ## Percent-encoding (models urllib.parse.quote with its default safe set) -/

/-- Bytes left unescaped by urllib.parse.quote: the unreserved ASCII set
(letters, digits, "_.-~") together with "/", the default value of the safe
parameter. -/
def quoteSafe (b : Nat) : Bool :=
  (decide (65 ≤ b) && decide (b ≤ 90)) || (decide (97 ≤ b) && decide (b ≤ 122)) ||
  (decide (48 ≤ b) && decide (b ≤ 57)) || decide (b = 45) || decide (b = 46) ||
  decide (b = 95) || decide (b = 126) || decide (b = 47)

def hexDigit (n : Nat) : Char :=
  (['0','1','2','3','4','5','6','7','8','9','A','B','C','D','E','F']).getD n '0'

def quoteByte (b : Nat) : List Char :=
  if quoteSafe b then [Char.ofNat b] else ['%', hexDigit (b / 16), hexDigit (b % 16)]

def quoteBytes : List Nat → List Char
  | [] => []
  | b :: bs => quoteByte b ++ quoteBytes bs

/-- Models urllib.parse.quote: the string is encoded as UTF-8 and every byte
outside the safe set is rendered as an uppercase %XX escape. -/
def urlQuote (s : String) : String := ⟨quoteBytes (utf8Encode s)⟩

theorem quoteByte_no_reserved : ∀ b, b < 256 → ∀ c ∈ quoteByte b,
    ¬(c = '?' ∨ c = '&' ∨ c = '=' ∨ c = '#') := by decide

theorem quoteBytes_no_reserved : ∀ (bs : List Nat), (∀ b ∈ bs, b < 256) →
    ∀ c ∈ quoteBytes bs, ¬(c = '?' ∨ c = '&' ∨ c = '=' ∨ c = '#') := by
  intro bs
  induction bs with
  | nil => intro _ c hc; simp [quoteBytes] at hc
  | cons b bs ih =>
    intro h c hc
    rw [quoteBytes, List.mem_append] at hc
    rcases hc with hc | hc
    · exact quoteByte_no_reserved b (h b (by simp)) c hc
    · exact ih (fun x hx => h x (by simp [hx])) c hc

theorem urlQuote_no_reserved (s : String) : ∀ c ∈ (urlQuote s).data,
    ¬(c = '?' ∨ c = '&' ∨ c = '=' ∨ c = '#') :=
  quoteBytes_no_reserved (utf8Encode s) (utf8Encode_lt_256 s)

/-! ## JSON values and json.dumps(..., indent=2)

The parsed JSON bodies handed back by the HTTP layer, and the values of the
`arguments` dict of a tool call.  Arrays and objects are separate mutual
inductives (rather than nested `List` fields) so that all functions over them
are structural and kernel-reducible; `jarr`/`jobj` build them from lists. -/

mutual

inductive Json where
  | null : Json
  | bool (b : Bool) : Json
  | num (n : Int) : Json
  | str (s : String) : Json
  | arr (elems : JsonArr) : Json
  | obj (fields : JsonObj) : Json

inductive JsonArr where
  | nil : JsonArr
  | cons (hd : Json) (tl : JsonArr) : JsonArr

inductive JsonObj where
  | nil : JsonObj
  | cons (key : String) (val : Json) (tl : JsonObj) : JsonObj

end

def jarrOf : List Json → JsonArr
  | [] => .nil
  | x :: xs => .cons x (jarrOf xs)

def jobjOf : List (String × Json) → JsonObj
  | [] => .nil
  | (k, v) :: kvs => .cons k v (jobjOf kvs)

def jarr (l : List Json) : Json := .arr (jarrOf l)

def jobj (l : List (String × Json)) : Json := .obj (jobjOf l)

/-- Lookup in a JSON object, models dict.get on a parsed body (keys of a
Python dict are unique, so first-match lookup is faithful). -/
def jObjGet : JsonObj → String → Option Json
  | .nil, _ => none
  | .cons k v kvs, key => if k = key then some v else jObjGet kvs key

/-- String escaping of json.dumps.  Control characters other than the common
escapes, and the non-ASCII \uXXXX escaping of ensure_ascii, are not modelled;
no payload examined here contains such characters. -/
def jsonEscapeChar (c : Char) : List Char :=
  if c = '"' then ['\\', '"']
  else if c = '\\' then ['\\', '\\']
  else if c = '\n' then ['\\', 'n']
  else if c = '\t' then ['\\', 't']
  else if c = '\r' then ['\\', 'r']
  else [c]

def jsonEscapeList : List Char → List Char
  | [] => []
  | c :: cs => jsonEscapeChar c ++ jsonEscapeList cs

def jsonEscape (s : String) : String := ⟨jsonEscapeList s.data⟩

def indentStr (d : Nat) : String := ⟨List.replicate (2 * d) ' '⟩

def joinItems : List String → String
  | [] => ""
  | [x] => x
  | x :: y :: xs => x ++ ",\n" ++ joinItems (y :: xs)

mutual

/-- Models json.dumps(v, indent=2) at nesting depth `d`. -/
def jsonDumpsAt (d : Nat) : Json → String
  | .null => "null"
  | .bool true => "true"
  | .bool false => "false"
  | .num n => toString n
  | .str s => "\"" ++ jsonEscape s ++ "\""
  | .arr .nil => "[]"
  | .arr (.cons x xs) =>
    "[\n" ++ joinItems (jsonDumpsArr (d + 1) (.cons x xs)) ++ "\n" ++ indentStr d ++ "]"
  | .obj .nil => "\x7b\x7d"
  | .obj (.cons k v kvs) =>
    "\x7b\n" ++ joinItems (jsonDumpsObj (d + 1) (.cons k v kvs)) ++ "\n" ++ indentStr d ++ "\x7d"

def jsonDumpsArr (d : Nat) : JsonArr → List String
  | .nil => []
  | .cons x xs => (indentStr d ++ jsonDumpsAt d x) :: jsonDumpsArr d xs

def jsonDumpsObj (d : Nat) : JsonObj → List String
  | .nil => []
  | .cons k v kvs =>
    (indentStr d ++ "\"" ++ jsonEscape k ++ "\": " ++ jsonDumpsAt d v) :: jsonDumpsObj d kvs

end

def jsonDumps (j : Json) : String := jsonDumpsAt 0 j

/-- Python truthiness of a parsed JSON value (used by `if labels:`). -/
def jsonTruthy : Json → Bool
  | .null => false
  | .bool b => b
  | .num n => decide (n ≠ 0)
  | .str s => decide (s ≠ "")
  | .arr .nil => false
  | .arr (.cons _ _) => true
  | .obj .nil => false
  | .obj (.cons _ _ _) => true

/-- Models Python str() as used in f-string interpolation of a value taken
from the arguments dict.  Scalars are exact; the rendering of containers
(which Python would produce via repr) is approximated by the JSON dump. -/
def pyStr : Json → String
  | .str s => s
  | .num n => toString n
  | .bool true => "True"
  | .bool false => "False"
  | .null => "None"
  | .arr xs => jsonDumps (.arr xs)
  | .obj kvs => jsonDumps (.obj kvs)

/-! ## Python string helpers -/

def splitAllAux (sep : Char) (acc : List Char) : List Char → List String
  | [] => [⟨acc.reverse⟩]
  | c :: cs =>
    if c = sep then String.mk acc.reverse :: splitAllAux sep [] cs
    else splitAllAux sep (c :: acc) cs

/-- Models Python str.split(sep) for a one-character separator: splits on
every occurrence, keeping empty chunks. -/
def pySplit (s : String) (sep : Char) : List String := splitAllAux sep [] s.data

def splitMaxAux (sep : Char) : Nat → List Char → List Char → List String
  | _, acc, [] => [⟨acc.reverse⟩]
  | 0, acc, c :: cs => [⟨acc.reverse ++ c :: cs⟩]
  | budget + 1, acc, c :: cs =>
    if c = sep then String.mk acc.reverse :: splitMaxAux sep budget [] cs
    else splitMaxAux sep (budget + 1) (c :: acc) cs

/-- Models Python str.split(sep, maxsplit): after `maxsplit` splits the whole
remainder becomes the final chunk. -/
def pySplitMax (s : String) (sep : Char) (maxsplit : Nat) : List String :=
  splitMaxAux sep maxsplit [] s.data

/-- Models Python str.startswith. -/
def strStartsWith (s pre : String) : Bool := pre.data.isPrefixOf s.data

/-- Models Python str.lstrip("/"). -/
def lstripSlashes (s : String) : String := ⟨s.data.dropWhile (fun c => c = '/')⟩

/-! ## Server model (src/github/server.py, class GitHubMCPServer)

`make_github_request` performs the single network round trip; it raises on
timeouts, connection errors and non-2xx statuses, and returns the parsed JSON
body otherwise.  It is modelled by an oracle `Upstream` deciding, per
outbound request, whether the call yields a body (`Except.ok`) or raises an
exception with the given message (`Except.error`, the str of the exception).
The fixed protocol headers and the bearer token header are the same for every
request and are not part of the request value. -/

structure OutboundRequest where
  endpoint : String
  method : String
  body : Option Json

def Upstream : Type := OutboundRequest → Except String Json

/-- Result of one handler run: the envelope text it produced and the outbound
requests it attempted. -/
structure ApiTrace where
  text : String
  calls : List OutboundRequest

/-- Abstracts the interpreter-generated text of a TypeError raised when an
argument value has a type its consumer cannot handle (for example min()
applied to a string, or urllib.parse.quote applied to an int).  No claim
depends on this text. -/
def pyTypeErrMsg : String := "unsupported argument type"

/-- Abstracts the text of the binascii.Error raised by base64.b64decode on
malformed input. -/
def b64ErrMsg : String := "Invalid base64-encoded string"

/-- Abstracts the text of the AttributeError raised when .get is applied to a
payload that is not a dict. -/
def attrErrMsg : String := "object has no attribute \x27get\x27"

/-- Rendering of content.get("size", "unknown") inside the binary-file
f-string: numbers and strings are exact, a missing key gives "unknown",
containers are approximated by their JSON dump. -/
def sizeDisplay : Option Json → String
  | some (Json.num n) => toString n
  | some (Json.str s) => s
  | some other => jsonDumps other
  | none => "unknown"

/-- The 50-dash separator of the file-content envelope. -/
def sepLine : String := ⟨List.replicate 50 '-'⟩

/-- Endpoint built by get_repositories. -/
def reposRequest : OutboundRequest :=
  ⟨"/user/repos?per_page=100&sort=updated", "GET", none⟩

def get_repositories (api : Upstream) : ApiTrace :=
  ⟨match api reposRequest with
    | .ok repos => jsonDumps repos
    | .error e => "Error fetching repositories: " ++ e,
   [reposRequest]⟩

def userRequest : OutboundRequest := ⟨"/user", "GET", none⟩

def get_user_profile (api : Upstream) : ApiTrace :=
  ⟨match api userRequest with
    | .ok user => jsonDumps user
    | .error e => "Error fetching user profile: " ++ e,
   [userRequest]⟩

def repoDetailsRequest (owner repo : String) : OutboundRequest :=
  ⟨"/repos/" ++ (owner ++ ("/" ++ repo)), "GET", none⟩

def get_repository_details (api : Upstream) (owner repo : String) : ApiTrace :=
  ⟨match api (repoDetailsRequest owner repo) with
    | .ok repoData => jsonDumps repoData
    | .error e => "Error fetching repository details: " ++ e,
   [repoDetailsRequest owner repo]⟩

/-- Endpoint built by search_repositories: the query is percent-encoded and
the requested page size is clamped by min(limit, 100). -/
def searchRequest (query : String) (limit : Int) : OutboundRequest :=
  ⟨"/search/repositories?q=" ++
    (urlQuote query ++ ("&per_page=" ++ (toString (min limit 100) ++ "&sort=stars&order=desc"))),
   "GET", none⟩

def search_repositories (api : Upstream) (query : String) (limit : Int) : ApiTrace :=
  ⟨match api (searchRequest query limit) with
    | .ok result => jsonDumps result
    | .error e => "Error searching repositories: " ++ e,
   [searchRequest query limit]⟩

def repoFilesRequest (owner repo path : String) : OutboundRequest :=
  ⟨"/repos/" ++ (owner ++ ("/" ++ (repo ++ "/contents"))) ++
    (if path = "" then "" else "/" ++ lstripSlashes path),
   "GET", none⟩

def get_repository_files (api : Upstream) (owner repo path : String) : ApiTrace :=
  ⟨match api (repoFilesRequest owner repo path) with
    | .ok contents => jsonDumps contents
    | .error e => "Error fetching repository files: " ++ e,
   [repoFilesRequest owner repo path]⟩

def fileContentsRequest (owner repo path ref : String) : OutboundRequest :=
  ⟨"/repos/" ++ (owner ++ ("/" ++ (repo ++ ("/contents/" ++ (lstripSlashes path ++ ("?ref=" ++ ref)))))),
   "GET", none⟩

/-- Response normalisation of get_file_content.  A base64-encoded payload is
decoded and interpreted as UTF-8 text; on UnicodeDecodeError the binary
diagnostic is emitted instead.  All other exceptions inside the handler body
(KeyError on a missing "content" key, binascii.Error, TypeError,
AttributeError on a non-dict payload) are caught by its own except clause and
rendered with the "Error fetching file content: " prefix. -/
def get_file_content (api : Upstream) (owner repo path : String) (ref : String) : ApiTrace :=
  ⟨match api (fileContentsRequest owner repo path ref) with
    | .error e => "Error fetching file content: " ++ e
    | .ok content =>
      match content with
      | .obj fields =>
        match jObjGet fields "encoding" with
        | some (Json.str enc) =>
          if enc = "base64" then
            match jObjGet fields "content" with
            | some (Json.str data64) =>
              match b64DecodeList data64.data with
              | some bytes =>
                match utf8DecodeList bytes with
                | some chars =>
                  "File: " ++ (path ++ ("\nContent:\n" ++ (sepLine ++ ("\n" ++ String.mk chars))))
                | none =>
                  "File: " ++ (path ++ ("\nNote: Binary file, cannot display content as text.\nSize: " ++
                    (sizeDisplay (jObjGet fields "size") ++ " bytes")))
              | none => "Error fetching file content: " ++ b64ErrMsg
            | some _ => "Error fetching file content: " ++ pyTypeErrMsg
            | none => "Error fetching file content: \x27content\x27"
          else jsonDumps content
        | _ => jsonDumps content
      | _ => "Error fetching file content: " ++ attrErrMsg,
   [fileContentsRequest owner repo path ref]⟩

def issueRequest (owner repo : String) (data : Json) : OutboundRequest :=
  ⟨"/repos/" ++ (owner ++ ("/" ++ (repo ++ "/issues"))), "POST", some data⟩

def create_issue (api : Upstream) (tok : Option String) (owner repo : String)
    (title body labels : Json) : ApiTrace :=
  match tok with
  | none => ⟨"Error: GitHub token required for creating issues", []⟩
  | some _ =>
    let data : Json :=
      if jsonTruthy labels then jobj [("title", title), ("body", body), ("labels", labels)]
      else jobj [("title", title), ("body", body)]
    ⟨match api (issueRequest owner repo data) with
      | .ok issue => jsonDumps issue
      | .error e => "Error creating issue: " ++ e,
     [issueRequest owner repo data]⟩

/-- Endpoint built by list_user_repos: the requested page size is clamped by
min(per_page, 100). -/
def listReposRequest (repo_type sort : String) (per_page : Int) : OutboundRequest :=
  ⟨"/user/repos" ++
    ("?type=" ++ (repo_type ++ ("&sort=" ++ (sort ++ ("&per_page=" ++ toString (min per_page 100)))))),
   "GET", none⟩

def list_user_repos (api : Upstream) (repo_type sort : String) (per_page : Int) : ApiTrace :=
  ⟨match api (listReposRequest repo_type sort per_page) with
    | .ok repos => jsonDumps repos
    | .error e => "Error listing user repositories: " ++ e,
   [listReposRequest repo_type sort per_page]⟩

/-! ## Tool dispatch (handle_call_tool) -/

/-- The declared tool registry of handle_list_tools. -/
def toolNames : List String :=
  ["search_repositories", "get_repository_files", "get_file_content", "create_issue",
   "list_user_repos"]

/-- Body of the try block of handle_call_tool: either a completed tool run
(`Except.ok`) or an exception reaching the handler's except clause
(`Except.error` with the str of the exception: the KeyError text for a
missing required argument, or the ValueError text for an unknown tool name).
Argument values arrive as raw JSON from the caller; where the Python
implementation would raise a TypeError deep inside a tool body for a value of
the wrong type (before any request is issued), the model returns the inner
error envelope directly with the abstracted message `pyTypeErrMsg`. -/
def callToolBody (api : Upstream) (tok : Option String) (name : String)
    (args : List (String × Json)) : Except String ApiTrace :=
  if name = "search_repositories" then
    match args.lookup "query" with
    | none => .error "\x27query\x27"
    | some (Json.str q) =>
      match (args.lookup "limit").getD (Json.num 10) with
      | Json.num lim => .ok (search_repositories api q lim)
      | _ => .ok ⟨"Error searching repositories: " ++ pyTypeErrMsg, []⟩
    | some _ => .ok ⟨"Error searching repositories: " ++ pyTypeErrMsg, []⟩
  else if name = "get_repository_files" then
    match args.lookup "owner" with
    | none => .error "\x27owner\x27"
    | some ov =>
      match args.lookup "repo" with
      | none => .error "\x27repo\x27"
      | some rv =>
        match (args.lookup "path").getD (Json.str "") with
        | Json.str p => .ok (get_repository_files api (pyStr ov) (pyStr rv) p)
        | _ => .ok ⟨"Error fetching repository files: " ++ pyTypeErrMsg, []⟩
  else if name = "get_file_content" then
    match args.lookup "owner" with
    | none => .error "\x27owner\x27"
    | some ov =>
      match args.lookup "repo" with
      | none => .error "\x27repo\x27"
      | some rv =>
        match args.lookup "path" with
        | none => .error "\x27path\x27"
        | some (Json.str p) =>
          .ok (get_file_content api (pyStr ov) (pyStr rv) p
            (pyStr ((args.lookup "ref").getD (Json.str "main"))))
        | some _ => .ok ⟨"Error fetching file content: " ++ pyTypeErrMsg, []⟩
  else if name = "create_issue" then
    match args.lookup "owner" with
    | none => .error "\x27owner\x27"
    | some ov =>
      match args.lookup "repo" with
      | none => .error "\x27repo\x27"
      | some rv =>
        match args.lookup "title" with
        | none => .error "\x27title\x27"
        | some titleV =>
          .ok (create_issue api tok (pyStr ov) (pyStr rv) titleV
            ((args.lookup "body").getD (Json.str ""))
            ((args.lookup "labels").getD (jarr [])))
  else if name = "list_user_repos" then
    match (args.lookup "per_page").getD (Json.num 30) with
    | Json.num pp =>
      .ok (list_user_repos api
        (pyStr ((args.lookup "type").getD (Json.str "all")))
        (pyStr ((args.lookup "sort").getD (Json.str "updated"))) pp)
    | _ => .ok ⟨"Error listing user repositories: " ++ pyTypeErrMsg, []⟩
  else .error ("Unknown tool: " ++ name)

/-- handle_call_tool: runs the try block and renders its outcome.  A
completed run yields the single TextContent envelope with the tool result; an
exception caught by the except clause yields the single "Error: <message>"
envelope.  The first component is the returned list of envelope texts, the
second the outbound requests attempted. -/
def handle_call_tool (api : Upstream) (tok : Option String) (name : String)
    (args : List (String × Json)) : List String × List OutboundRequest :=
  match callToolBody api tok name args with
  | .ok t => ([t.text], t.calls)
  | .error e => (["Error: " ++ e], [])

/-! ## Resource reads (handle_read_resource) -/

/-- handle_read_resource.  There is no try/except in this handler: a URI
matching no route reaches the final raise, modelled by `Except.error` with
the str of the ValueError, which propagates out of the handler.  Exceptions
inside the four resource readers are caught by those readers themselves. -/
def handle_read_resource (api : Upstream) (uri : String) : Except String ApiTrace :=
  if uri = "github://repositories" then .ok (get_repositories api)
  else if uri = "github://user" then .ok (get_user_profile api)
  else if strStartsWith uri "github://repo/" then
    if 4 ≤ (pySplit uri '/').length then
      .ok (get_repository_details api
        ((pySplit uri '/').getD 2 "") ((pySplit uri '/').getD 3 ""))
    else .error ("Unknown resource URI: " ++ uri)
  else if strStartsWith uri "github://file/" then
    if 5 ≤ (pySplitMax uri '/' 4).length then
      .ok (get_file_content api ((pySplitMax uri '/' 4).getD 2 "")
        ((pySplitMax uri '/' 4).getD 3 "") ((pySplitMax uri '/' 4).getD 4 "") "main")
    else .error ("Unknown resource URI: " ++ uri)
  else .error ("Unknown resource URI: " ++ uri)

/-! ## Concrete upstream oracles used as witnesses -/

/-- An upstream that fails every request (network down). -/
def offlineApi : Upstream := fun _ => .error "connection refused"

/-- An upstream answering every request with a successful empty search
result, as the GitHub search API renders zero matches. -/
def searchEmptyApi : Upstream := fun _ =>
  .ok (jobj [("total_count", Json.num 0), ("incomplete_results", Json.bool false),
    ("items", jarr [])])

/-- An upstream answering with a base64 file payload whose bytes are the
UTF-8 encoding of "hi". -/
def fileTextApi : Upstream := fun _ =>
  .ok (jobj [("encoding", Json.str "base64"),
    ("content", Json.str (b64Encode (utf8Encode "hi"))), ("size", Json.num 2)])

/-- An upstream answering with a base64 file payload of two bytes that are
not valid UTF-8. -/
def fileBinaryApi : Upstream := fun _ =>
  .ok (jobj [("encoding", Json.str "base64"),
    ("content", Json.str (b64Encode [255, 254])), ("size", Json.num 2)])

/-! ## Claims -/

/-- C1 (amended): every callTool invocation produces exactly one envelope;
an exception reaching the handler boundary of callTool is rendered as the
"Error: <message>" envelope with no request issued; readResource either
returns an envelope or lets the unknown-URI ValueError propagate out of the
handler — that ValueError is the only fault that escapes. -/
theorem dispatch_envelope_policy :
    (∀ (api : Upstream) (tok : Option String) (name : String) (args : List (String × Json)),
      (handle_call_tool api tok name args).1.length = 1)
    ∧ (∀ (api : Upstream) (tok : Option String) (name : String) (args : List (String × Json))
        (e : String), callToolBody api tok name args = .error e →
        handle_call_tool api tok name args = (["Error: " ++ e], []))
    ∧ (∀ (api : Upstream) (uri : String),
        (handle_read_resource api uri).isOk = true
        ∨ handle_read_resource api uri = .error ("Unknown resource URI: " ++ uri)) := by
  refine ⟨?_, ?_, ?_⟩
  · intro api tok name args
    rw [handle_call_tool]
    cases callToolBody api tok name args <;> rfl
  · intro api tok name args e h
    rw [handle_call_tool, h]
  · intro api uri
    rw [handle_read_resource]
    repeat' split
    all_goals first | exact Or.inl rfl | exact Or.inr rfl

/-- C1 witness for the hypothesis of the middle conjunct: an unknown tool
name makes the try body raise, and the handler renders the Error envelope. -/
theorem dispatch_envelope_policy_witness :
    handle_call_tool offlineApi none "frobnicate" [] =
      (["Error: " ++ "Unknown tool: frobnicate"], []) :=
  dispatch_envelope_policy.2.1 offlineApi none "frobnicate" [] "Unknown tool: frobnicate" rfl

/-- C1 counterexample to the claim as stated: a readResource invocation with
a URI matching no route raises a ValueError that propagates past the
dispatch boundary instead of being rendered into an envelope. -/
theorem read_resource_unknown_uri_fault :
    handle_read_resource offlineApi "github://oops" =
      .error "Unknown resource URI: github://oops" := rfl

/-- C2: a requested page size above 100 is clamped to exactly 100 in the
outbound query string for both search_repositories and list_user_repos, and
an omitted page-size argument defaults to 10 for search and 30 for listing. -/
theorem page_size_clamp_and_defaults :
    (∀ (q : String) (limit : Int), 100 < limit →
      searchRequest q limit =
        ⟨"/search/repositories?q=" ++ (urlQuote q ++ "&per_page=100&sort=stars&order=desc"),
         "GET", none⟩)
    ∧ (∀ (t s : String) (pp : Int), 100 < pp →
      listReposRequest t s pp =
        ⟨"/user/repos" ++ ("?type=" ++ (t ++ ("&sort=" ++ (s ++ "&per_page=100")))),
         "GET", none⟩)
    ∧ (∀ (api : Upstream) (tok : Option String) (args : List (String × Json)) (q : String),
        args.lookup "query" = some (Json.str q) → args.lookup "limit" = none →
        (handle_call_tool api tok "search_repositories" args).2 = [searchRequest q 10])
    ∧ (∀ (api : Upstream) (tok : Option String) (args : List (String × Json)),
        args.lookup "per_page" = none →
        (handle_call_tool api tok "list_user_repos" args).2 =
          [listReposRequest (pyStr ((args.lookup "type").getD (Json.str "all")))
            (pyStr ((args.lookup "sort").getD (Json.str "updated"))) 30]) := by
  refine ⟨?_, ?_, ?_, ?_⟩
  · intro q limit h
    simp only [searchRequest, min_eq_right (by omega : (100 : Int) ≤ limit)]
    rw [(by decide :
      "&per_page=" ++ (toString (100 : Int) ++ "&sort=stars&order=desc") =
        "&per_page=100&sort=stars&order=desc")]
  · intro t s pp h
    simp only [listReposRequest, min_eq_right (by omega : (100 : Int) ≤ pp)]
    rw [(by decide : "&per_page=" ++ toString (100 : Int) = "&per_page=100")]
  · intro api tok args q hq hl
    rw [handle_call_tool, callToolBody, if_pos rfl, hq, hl]
    rfl
  · intro api tok args h
    rw [handle_call_tool, callToolBody, if_neg (by decide), if_neg (by decide),
      if_neg (by decide), if_neg (by decide), if_pos rfl, h]
    rfl

/-- C2 witness: the clamp at 150 and 101, and the defaults with the argument
omitted. -/
theorem page_size_clamp_and_defaults_witness :
    searchRequest "x" 150 =
      ⟨"/search/repositories?q=" ++ (urlQuote "x" ++ "&per_page=100&sort=stars&order=desc"),
       "GET", none⟩
    ∧ listReposRequest "all" "updated" 101 =
      ⟨"/user/repos" ++ ("?type=" ++ ("all" ++ ("&sort=" ++ ("updated" ++ "&per_page=100")))),
       "GET", none⟩
    ∧ (handle_call_tool offlineApi none "search_repositories" [("query", Json.str "x")]).2 =
      [searchRequest "x" 10]
    ∧ (handle_call_tool offlineApi none "list_user_repos" []).2 =
      [listReposRequest (pyStr ((List.lookup "type" ([] : List (String × Json))).getD
          (Json.str "all")))
        (pyStr ((List.lookup "sort" ([] : List (String × Json))).getD (Json.str "updated"))) 30] :=
  ⟨page_size_clamp_and_defaults.1 "x" 150 (by omega),
   page_size_clamp_and_defaults.2.1 "all" "updated" 101 (by omega),
   page_size_clamp_and_defaults.2.2.1 offlineApi none [("query", Json.str "x")] "x" rfl rfl,
   page_size_clamp_and_defaults.2.2.2 offlineApi none [] rfl⟩

/-- C3 (code evaluated at the failing input): for a file URI the resolver
passes the literal prefix word "file" as owner, the real owner as repo, and
"repo/path" as the path, because it reads parts[2]/parts[3]/parts[4] of the
split where the owner only starts at parts[3]; the upstream request is built
for /repos/file/alice/... accordingly. -/
theorem file_uri_resolution_actual (api : Upstream) :
    handle_read_resource api "github://file/alice/proj/src/main.py" =
      .ok (get_file_content api "file" "alice" "proj/src/main.py" "main")
    ∧ (get_file_content api "file" "alice" "proj/src/main.py" "main").calls =
      [⟨"/repos/file/alice/contents/proj/src/main.py?ref=main", "GET", none⟩] :=
  ⟨rfl, rfl⟩

/-- C4 (code evaluated at the failing input): for a repo URI the resolver
passes the literal prefix word "repo" as owner and the real owner as repo
(parts[2]/parts[3] instead of parts[3]/parts[4]), issues the request
/repos/repo/alice, and a URI with a missing repo segment still resolves
instead of failing. -/
theorem repo_uri_resolution_actual (api : Upstream) :
    handle_read_resource api "github://repo/alice/proj" =
      .ok (get_repository_details api "repo" "alice")
    ∧ (get_repository_details api "repo" "alice").calls =
      [⟨"/repos/repo/alice", "GET", none⟩]
    ∧ handle_read_resource api "github://repo/alice" =
      .ok (get_repository_details api "repo" "alice") :=
  ⟨rfl, rfl, rfl⟩

/-- C5: a base64 file payload whose bytes are the UTF-8 encoding of a text
decodes back to exactly that text; the envelope is the File/Content wrapper
around the original text, character for character. -/
theorem file_base64_utf8_roundtrip (api : Upstream) (owner repo path ref : String)
    (t : String) (sz : Int)
    (h : api (fileContentsRequest owner repo path ref) =
      .ok (jobj [("encoding", Json.str "base64"),
        ("content", Json.str (b64Encode (utf8Encode t))), ("size", Json.num sz)])) :
    (get_file_content api owner repo path ref).text =
      "File: " ++ (path ++ ("\nContent:\n" ++ (sepLine ++ ("\n" ++ t)))) := by
  simp only [get_file_content, h, jobj, jobjOf, jObjGet, String.reduceEq, reduceIte]
  simp only [show (b64Encode (utf8Encode t)).data = b64EncodeList (utf8Encode t) from rfl,
    b64DecodeList_encodeList _ (utf8Encode_lt_256 t), utf8DecodeList_utf8Encode]

/-- C5 witness: the payload encoding "hi" round-trips through the dispatcher
at a concrete request. -/
theorem file_base64_utf8_roundtrip_witness :
    (get_file_content fileTextApi "octo" "demo" "README.md" "main").text =
      "File: " ++ ("README.md" ++ ("\nContent:\n" ++ (sepLine ++ ("\n" ++ "hi")))) :=
  file_base64_utf8_roundtrip fileTextApi "octo" "demo" "README.md" "main" "hi" 2 rfl

/-- C6: a base64 file payload whose bytes are not valid UTF-8 yields the
binary diagnostic envelope, which mentions the byte size reported upstream
and is a fixed template containing none of the raw bytes (the right-hand
side does not depend on the byte list). -/
theorem file_binary_size_envelope (api : Upstream) (owner repo path ref : String)
    (bs : List Nat) (sz : Int)
    (hbytes : ∀ b ∈ bs, b < 256) (hbin : utf8DecodeList bs = none)
    (h : api (fileContentsRequest owner repo path ref) =
      .ok (jobj [("encoding", Json.str "base64"),
        ("content", Json.str (b64Encode bs)), ("size", Json.num sz)])) :
    (get_file_content api owner repo path ref).text =
      "File: " ++ (path ++ ("\nNote: Binary file, cannot display content as text.\nSize: " ++
        (toString sz ++ " bytes"))) := by
  simp only [get_file_content, h, jobj, jobjOf, jObjGet, String.reduceEq, reduceIte]
  simp only [show (b64Encode bs).data = b64EncodeList bs from rfl,
    b64DecodeList_encodeList _ hbytes, hbin]
  rfl

/-- C6 witness: the two-byte payload 0xFF 0xFE is not UTF-8 and produces the
size-2 diagnostic envelope. -/
theorem file_binary_size_envelope_witness :
    (get_file_content fileBinaryApi "octo" "demo" "logo.png" "main").text =
      "File: " ++ ("logo.png" ++ ("\nNote: Binary file, cannot display content as text.\nSize: " ++
        (toString (2 : Int) ++ " bytes"))) :=
  file_binary_size_envelope fileBinaryApi "octo" "demo" "logo.png" "main" [255, 254] 2
    (by decide) (by decide) rfl

/-- C7: the search query is percent-encoded into the outbound query string —
the example invocation produces q=mcp%20server with per_page=100 — and the
encoded query never contains the reserved characters question mark,
ampersand, equals or hash, so the path portion of the constructed endpoint
cannot be altered by the query. -/
theorem search_query_percent_encoding :
    (∀ (api : Upstream) (tok : Option String),
      (handle_call_tool api tok "search_repositories"
          [("query", Json.str "mcp server"), ("limit", Json.num 150)]).2 =
        [⟨"/search/repositories?q=mcp%20server&per_page=100&sort=stars&order=desc",
          "GET", none⟩])
    ∧ (∀ (s : String), ∀ c ∈ (urlQuote s).data, ¬(c = '?' ∨ c = '&' ∨ c = '=' ∨ c = '#'))
    ∧ (∀ (q : String) (lim : Int), (searchRequest q lim).endpoint =
        "/search/repositories?" ++
          ("q=" ++ (urlQuote q ++ ("&per_page=" ++ (toString (min lim 100) ++
            "&sort=stars&order=desc"))))) := by
  refine ⟨fun _ _ => rfl, urlQuote_no_reserved, ?_⟩
  intro q lim
  simp only [searchRequest]
  conv_rhs => rw [← String.append_assoc,
    (by decide : "/search/repositories?" ++ "q=" = "/search/repositories?q=")]

/-- C7 witness: instantiation of the encoding guarantee at a query containing
a space and a question mark, and of the example invocation at a concrete
upstream. -/
theorem search_query_percent_encoding_witness :
    (handle_call_tool offlineApi none "search_repositories"
        [("query", Json.str "mcp server"), ("limit", Json.num 150)]).2 =
      [⟨"/search/repositories?q=mcp%20server&per_page=100&sort=stars&order=desc",
        "GET", none⟩]
    ∧ ¬('%' = '?' ∨ '%' = '&' ∨ '%' = '=' ∨ '%' = '#') :=
  ⟨search_query_percent_encoding.1 offlineApi none,
   search_query_percent_encoding.2.1 "a b?c" '%' (by decide)⟩

/-- C8 counterexample: a successful search invocation returns the raw JSON
dump of the upstream payload; the envelope for an empty result set contains
no "(n found)" count prefix — the word "found" does not occur in it at
all. -/
theorem search_count_prefix_counterexample :
    (handle_call_tool searchEmptyApi none "search_repositories"
        [("query", Json.str "zzz")]).1 =
      ["\x7b\n  \"total_count\": 0,\n  \"incomplete_results\": false,\n  \"items\": []\n\x7d"]
    ∧ ¬ List.IsInfix "found".data
        "\x7b\n  \"total_count\": 0,\n  \"incomplete_results\": false,\n  \"items\": []\n\x7d".data := by
  exact ⟨rfl, by decide⟩

/-- C8 (amended): a successful list-returning invocation (repository search
or repository listing) returns the pretty-printed JSON of the upstream
payload verbatim; no count prefix is added, so any counts shown come from
the upstream payload itself. -/
theorem list_results_raw_json :
    (∀ (api : Upstream) (q : String) (lim : Int) (j : Json),
      api (searchRequest q lim) = .ok j →
      (search_repositories api q lim).text = jsonDumps j)
    ∧ (∀ (api : Upstream) (t s : String) (pp : Int) (j : Json),
      api (listReposRequest t s pp) = .ok j →
      (list_user_repos api t s pp).text = jsonDumps j) := by
  constructor
  · intro api q lim j h
    simp only [search_repositories, h]
  · intro api t s pp j h
    simp only [list_user_repos, h]

/-- C8 witness: the empty search result renders as its JSON dump. -/
theorem list_results_raw_json_witness :
    (search_repositories searchEmptyApi "zzz" 10).text =
      jsonDumps (jobj [("total_count", Json.num 0), ("incomplete_results", Json.bool false),
        ("items", jarr [])]) :=
  list_results_raw_json.1 searchEmptyApi "zzz" 10
    (jobj [("total_count", Json.num 0), ("incomplete_results", Json.bool false),
      ("items", jarr [])]) rfl

/-- C9: a tool name outside the registry makes callTool return the single
"Error: Unknown tool: <name>" envelope, whose text contains "Unknown tool",
and no outbound request is issued. -/
theorem unknown_tool_envelope (api : Upstream) (tok : Option String) (name : String)
    (args : List (String × Json)) (h : name ∉ toolNames) :
    handle_call_tool api tok name args = (["Error: " ++ ("Unknown tool: " ++ name)], [])
    ∧ List.IsInfix "Unknown tool".data ("Error: " ++ ("Unknown tool: " ++ name)).data := by
  simp only [toolNames, List.mem_cons, List.not_mem_nil, or_false, not_or] at h
  obtain ⟨h1, h2, h3, h4, h5⟩ := h
  constructor
  · rw [handle_call_tool, callToolBody, if_neg h1, if_neg h2, if_neg h3, if_neg h4, if_neg h5]
  · refine ⟨"Error: ".data, (": " ++ name).data, ?_⟩
    simp only [String.data_append, List.append_assoc]
    rw [← List.append_assoc "Unknown tool".data ": ".data name.data,
      (by decide : "Unknown tool".data ++ ": ".data = "Unknown tool: ".data)]

/-- C9 witness: the unregistered name "frobnicate2" yields the error envelope
and an empty request list. -/
theorem unknown_tool_envelope_witness :
    handle_call_tool offlineApi none "frobnicate2" [] =
      (["Error: " ++ ("Unknown tool: " ++ "frobnicate2")], [])
    ∧ List.IsInfix "Unknown tool".data ("Error: " ++ ("Unknown tool: " ++ "frobnicate2")).data :=
  unknown_tool_envelope offlineApi none "frobnicate2" [] (by decide)

/-- C10: a supplied page size of at most 100 — zero and negative values
included — is placed in the outbound query string unchanged: min(requested,
100) clamps only from above and performs no positivity check. -/
theorem page_size_passthrough :
    (∀ (q : String) (lim : Int), lim ≤ 100 →
      searchRequest q lim =
        ⟨"/search/repositories?q=" ++ (urlQuote q ++ ("&per_page=" ++
          (toString lim ++ "&sort=stars&order=desc"))), "GET", none⟩)
    ∧ (∀ (t s : String) (pp : Int), pp ≤ 100 →
      listReposRequest t s pp =
        ⟨"/user/repos" ++ ("?type=" ++ (t ++ ("&sort=" ++ (s ++ ("&per_page=" ++ toString pp))))),
         "GET", none⟩) := by
  constructor
  · intro q lim h
    simp only [searchRequest, min_eq_left h]
  · intro t s pp h
    simp only [listReposRequest, min_eq_left h]

/-- C10 witness: per_page = -5 is sent upstream as the literal -5. -/
theorem page_size_passthrough_witness :
    listReposRequest "all" "updated" (-5) =
      ⟨"/user/repos?type=all&sort=updated&per_page=-5", "GET", none⟩
    ∧ searchRequest "x" 0 =
      ⟨"/search/repositories?q=x&per_page=0&sort=stars&order=desc", "GET", none⟩ :=
  ⟨(page_size_passthrough.2 "all" "updated" (-5) (by omega)).trans rfl,
   (page_size_passthrough.1 "x" 0 (by omega)).trans rfl⟩

end GitHubMCP
